import Mathlib

/-
Verification of the ROI calculator in the DexSgOurDexes component.
Numbers are modelled as exact rationals (ℚ); every constant in the source
(0.05, 0.4, 0.01, ...) is exactly representable, so the JS double
arithmetic on the small inputs considered here coincides with ℚ.
-/

namespace DexMock

/-- The twelve-field numeric input record (`defaultValues` shape in the source). -/
structure ParameterSet where
  num_partners : ℚ
  avg_tx_per_partner : ℚ
  int_build_cost_per_partner : ℚ
  int_maint_pct : ℚ
  api_fee_per_tx : ℚ
  compliance_cost_annual : ℚ
  error_penalty_rate : ℚ
  error_rate_legacy : ℚ
  error_rate_platform : ℚ
  onboard_days_legacy : ℚ
  onboard_days_platform : ℚ
  daily_revenue_per_partner : ℚ
deriving DecidableEq

/-- `defaultValues` from the source (lines 22-35). -/
def defaultValues : ParameterSet :=
  { num_partners := 5
    avg_tx_per_partner := 1000
    int_build_cost_per_partner := 15000
    int_maint_pct := 20
    api_fee_per_tx := 0.05
    compliance_cost_annual := 50000
    error_penalty_rate := 15
    error_rate_legacy := 3
    error_rate_platform := 0.5
    onboard_days_legacy := 30
    onboard_days_platform := 5
    daily_revenue_per_partner := 2000 }

/-- `scenarios.conservative` (source lines 39-44): spread of defaultValues
with three overrides. -/
def scenarios_conservative : ParameterSet :=
  { defaultValues with
    num_partners := 3
    avg_tx_per_partner := 500
    daily_revenue_per_partner := 1000 }

/-- `scenarios.optimistic` (source lines 45-50): spread of defaultValues
with three overrides. -/
def scenarios_optimistic : ParameterSet :=
  { defaultValues with
    num_partners := 10
    avg_tx_per_partner := 2000
    daily_revenue_per_partner := 3000 }

/-- Return shape of the cost helpers: `{ total, error_cost }`. -/
structure CostBreakdown where
  total : ℚ
  error_cost : ℚ
deriving DecidableEq

/-- `calculateLegacyCosts` (source lines 98-109). -/
def calculateLegacyCosts (values : ParameterSet) : CostBreakdown :=
  let legacy_int_build := values.num_partners * values.int_build_cost_per_partner
  let legacy_int_maint := legacy_int_build * (values.int_maint_pct / 100)
  let legacy_api_fees := values.num_partners * values.avg_tx_per_partner * 12 * values.api_fee_per_tx
  let legacy_compliance := values.compliance_cost_annual
  let legacy_error_cost := values.num_partners * values.avg_tx_per_partner * 12 *
    (values.error_rate_legacy / 100) * values.error_penalty_rate
  { total := legacy_int_build + legacy_int_maint + legacy_api_fees + legacy_compliance + legacy_error_cost
    error_cost := legacy_error_cost }

/-- `calculatePlatformCosts` (source lines 111-121). -/
def calculatePlatformCosts (values : ParameterSet) : CostBreakdown :=
  let platform_sub_fee := 10000 + values.num_partners * 1000
  let platform_tx_fee := values.num_partners * values.avg_tx_per_partner * 12 * 0.01
  let platform_compliance := values.compliance_cost_annual * 0.4
  let platform_error_cost := values.num_partners * values.avg_tx_per_partner * 12 *
    (values.error_rate_platform / 100) * values.error_penalty_rate
  { total := platform_sub_fee + platform_tx_fee + platform_compliance + platform_error_cost
    error_cost := platform_error_cost }

/-- The four derived figures returned by the engine. -/
structure ResultSet where
  totalBenefit : ℚ
  costSaving : ℚ
  revenueSaving : ℚ
  riskSaving : ℚ
deriving DecidableEq

/-- `calculateBenefits` (source lines 123-138); the spec calls it `computeBenefits`. -/
def calculateBenefits (values : ParameterSet) : ResultSet :=
  let legacyCosts := calculateLegacyCosts values
  let platformCosts := calculatePlatformCosts values
  let onboarding_time_saved := values.onboard_days_legacy - values.onboard_days_platform
  let revenue_uplift := values.num_partners * values.daily_revenue_per_partner * onboarding_time_saved
  let cost_saving := legacyCosts.total - platformCosts.total
  let risk_saving := legacyCosts.error_cost - platformCosts.error_cost
  { totalBenefit := revenue_uplift + cost_saving + risk_saving
    costSaving := cost_saving
    revenueSaving := revenue_uplift
    riskSaving := risk_saving }

/-- Names of the twelve ParameterSet fields (the `name` attribute of the inputs). -/
inductive FieldName where
  | num_partners
  | avg_tx_per_partner
  | int_build_cost_per_partner
  | int_maint_pct
  | api_fee_per_tx
  | compliance_cost_annual
  | error_penalty_rate
  | error_rate_legacy
  | error_rate_platform
  | onboard_days_legacy
  | onboard_days_platform
  | daily_revenue_per_partner
deriving DecidableEq

/-- Field projection by name. -/
def ParameterSet.get (p : ParameterSet) : FieldName → ℚ
  | .num_partners => p.num_partners
  | .avg_tx_per_partner => p.avg_tx_per_partner
  | .int_build_cost_per_partner => p.int_build_cost_per_partner
  | .int_maint_pct => p.int_maint_pct
  | .api_fee_per_tx => p.api_fee_per_tx
  | .compliance_cost_annual => p.compliance_cost_annual
  | .error_penalty_rate => p.error_penalty_rate
  | .error_rate_legacy => p.error_rate_legacy
  | .error_rate_platform => p.error_rate_platform
  | .onboard_days_legacy => p.onboard_days_legacy
  | .onboard_days_platform => p.onboard_days_platform
  | .daily_revenue_per_partner => p.daily_revenue_per_partner

/-- Single-field update by name, `{ ...prev, [name]: v }` in the source. -/
def ParameterSet.setField (p : ParameterSet) : FieldName → ℚ → ParameterSet
  | .num_partners, v => { p with num_partners := v }
  | .avg_tx_per_partner, v => { p with avg_tx_per_partner := v }
  | .int_build_cost_per_partner, v => { p with int_build_cost_per_partner := v }
  | .int_maint_pct, v => { p with int_maint_pct := v }
  | .api_fee_per_tx, v => { p with api_fee_per_tx := v }
  | .compliance_cost_annual, v => { p with compliance_cost_annual := v }
  | .error_penalty_rate, v => { p with error_penalty_rate := v }
  | .error_rate_legacy, v => { p with error_rate_legacy := v }
  | .error_rate_platform, v => { p with error_rate_platform := v }
  | .onboard_days_legacy, v => { p with onboard_days_legacy := v }
  | .onboard_days_platform, v => { p with onboard_days_platform := v }
  | .daily_revenue_per_partner, v => { p with daily_revenue_per_partner := v }

/-- Component state: the four `useState` hooks the calculator uses
(`calculatorValues`, `scenario`, `roiResults`, `selectedMetric`). -/
structure ComponentState where
  calculatorValues : ParameterSet
  scenario : String
  roiResults : ResultSet
  selectedMetric : Option String
deriving DecidableEq

/-- Initial hook values (source lines 87-95). -/
def initialState : ComponentState :=
  { calculatorValues := defaultValues
    scenario := "default"
    roiResults := { totalBenefit := 0, costSaving := 0, revenueSaving := 0, riskSaving := 0 }
    selectedMetric := none }

/-- `handleCalculate` (source lines 140-143). -/
def handleCalculate (s : ComponentState) : ComponentState :=
  { s with roiResults := calculateBenefits s.calculatorValues }

/-- `handleScenarioChange` (source lines 145-154). -/
def handleScenarioChange (s : ComponentState) (newScenario : String) : ComponentState :=
  { s with
    scenario := newScenario
    calculatorValues :=
      if newScenario = "conservative" then scenarios_conservative
      else if newScenario = "optimistic" then scenarios_optimistic
      else defaultValues }

/-- JS `parseFloat(value) || 0` (source line 160). `none` models a parse
failure (`parseFloat` returning NaN, e.g. on the empty string); the `|| 0`
collapses both NaN and a parsed 0 to 0. -/
def parseFloatOrZero : Option ℚ → ℚ
  | none => 0
  | some x => if x = 0 then 0 else x

/-- `handleInputChange` (source lines 156-163), with the `parseFloat` result
of the raw text abstracted as an `Option ℚ` (`none` = NaN). -/
def handleInputChange (s : ComponentState) (name : FieldName) (parsed : Option ℚ) : ComponentState :=
  { s with
    calculatorValues := s.calculatorValues.setField name (parseFloatOrZero parsed)
    scenario := "custom" }

/-- The metric-card click handler (source line 595):
`setSelectedMetric(selectedMetric === key ? null : key)`. -/
def toggleMetricDetail (s : ComponentState) (key : String) : ComponentState :=
  { s with selectedMetric := if s.selectedMetric = some key then none else some key }

/-- The JSX guard on the result grid (source line 587):
`roiResults.totalBenefit > 0 && (...)`. -/
def showResultsGrid (s : ComponentState) : Bool :=
  decide (s.roiResults.totalBenefit > 0)

/-- The all-zero ParameterSet. -/
def zeroParams : ParameterSet :=
  { num_partners := 0
    avg_tx_per_partner := 0
    int_build_cost_per_partner := 0
    int_maint_pct := 0
    api_fee_per_tx := 0
    compliance_cost_annual := 0
    error_penalty_rate := 0
    error_rate_legacy := 0
    error_rate_platform := 0
    onboard_days_legacy := 0
    onboard_days_platform := 0
    daily_revenue_per_partner := 0 }

/-- Parameter set used to witness a negative revenueSaving: the default
preset with the onboarding durations swapped (platform slower than legacy). -/
def slowOnboardParams : ParameterSet :=
  { defaultValues with onboard_days_legacy := 5, onboard_days_platform := 30 }

/-- C1 (counterexample): on the all-zero ParameterSet, calculateBenefits does
NOT return all four fields equal to 0 — the platform subscription fee has a
fixed base of 10000, so costSaving and totalBenefit are -10000. -/
theorem c1_counterexample :
    ¬ ((calculateBenefits zeroParams).totalBenefit = 0 ∧ (calculateBenefits zeroParams).costSaving = 0
      ∧ (calculateBenefits zeroParams).revenueSaving = 0 ∧ (calculateBenefits zeroParams).riskSaving = 0) := by
  norm_num [calculateBenefits, calculateLegacyCosts, calculatePlatformCosts, zeroParams]

/-- C1 (amended): on the all-zero ParameterSet, revenueSaving and riskSaving
are 0, while costSaving and totalBenefit are both -10000, because the fixed
10000 base of the platform subscription fee survives zero partners. -/
theorem c1_zero_params :
    (calculateBenefits zeroParams).revenueSaving = 0 ∧ (calculateBenefits zeroParams).riskSaving = 0
    ∧ (calculateBenefits zeroParams).costSaving = -10000
    ∧ (calculateBenefits zeroParams).totalBenefit = -10000 := by
  norm_num [calculateBenefits, calculateLegacyCosts, calculatePlatformCosts, zeroParams]

/-- C2: for every ParameterSet, costSaving equals legacy_total minus
platform_total, with both totals written out independently from their
spec formulas. -/
theorem c2_cost_saving_identity (p : ParameterSet) :
    (calculateBenefits p).costSaving =
      (p.num_partners * p.int_build_cost_per_partner
        + p.num_partners * p.int_build_cost_per_partner * (p.int_maint_pct / 100)
        + p.num_partners * p.avg_tx_per_partner * 12 * p.api_fee_per_tx
        + p.compliance_cost_annual
        + p.num_partners * p.avg_tx_per_partner * 12 * (p.error_rate_legacy / 100) * p.error_penalty_rate)
      - ((10000 + p.num_partners * 1000)
        + p.num_partners * p.avg_tx_per_partner * 12 * 0.01
        + p.compliance_cost_annual * 0.4
        + p.num_partners * p.avg_tx_per_partner * 12 * (p.error_rate_platform / 100) * p.error_penalty_rate) := by
  simp [calculateBenefits, calculateLegacyCosts, calculatePlatformCosts]

/-- C3: for every ParameterSet, totalBenefit is exactly the sum of
costSaving, revenueSaving and riskSaving. -/
theorem c3_total_is_sum (p : ParameterSet) :
    (calculateBenefits p).totalBenefit =
      (calculateBenefits p).costSaving + (calculateBenefits p).revenueSaving
        + (calculateBenefits p).riskSaving := by
  simp [calculateBenefits]
  ring

/-- C4: revenueSaving is always num_partners * daily_revenue_per_partner *
(onboard_days_legacy - onboard_days_platform), unclamped; and whenever the
platform onboarding is slower (with positive partner count and daily
revenue) revenueSaving is strictly negative and still flows unmodified
into totalBenefit as one of its three summands. -/
theorem c4_revenue_saving :
    (∀ p : ParameterSet,
      (calculateBenefits p).revenueSaving =
        p.num_partners * p.daily_revenue_per_partner * (p.onboard_days_legacy - p.onboard_days_platform))
    ∧ (∀ p : ParameterSet, p.onboard_days_legacy < p.onboard_days_platform →
        0 < p.num_partners → 0 < p.daily_revenue_per_partner →
        (calculateBenefits p).revenueSaving < 0
        ∧ (calculateBenefits p).totalBenefit =
            (calculateBenefits p).costSaving + (calculateBenefits p).revenueSaving
              + (calculateBenefits p).riskSaving) := by
  refine ⟨fun p => by simp [calculateBenefits], fun p h1 h2 h3 => ?_⟩
  have hrev : (calculateBenefits p).revenueSaving =
      p.num_partners * p.daily_revenue_per_partner *
        (p.onboard_days_legacy - p.onboard_days_platform) := by
    simp [calculateBenefits]
  refine ⟨?_, by simp [calculateBenefits]; ring⟩
  rw [hrev]
  exact mul_neg_of_pos_of_neg (mul_pos h2 h3) (by linarith)

/-- C4 witness: on the default preset with onboarding durations swapped,
revenueSaving is negative and totalBenefit is still the plain sum. -/
theorem c4_revenue_saving_witness :
    (calculateBenefits slowOnboardParams).revenueSaving < 0
    ∧ (calculateBenefits slowOnboardParams).totalBenefit =
        (calculateBenefits slowOnboardParams).costSaving
          + (calculateBenefits slowOnboardParams).revenueSaving
          + (calculateBenefits slowOnboardParams).riskSaving :=
  c4_revenue_saving.2 slowOnboardParams (by norm_num [slowOnboardParams, defaultValues])
    (by norm_num [slowOnboardParams, defaultValues]) (by norm_num [slowOnboardParams, defaultValues])

/-- C5: the default preset yields exactly costSaving = 129900,
revenueSaving = 250000, riskSaving = 22500, totalBenefit = 402400. -/
theorem c5_default_preset :
    calculateBenefits defaultValues =
      { totalBenefit := 402400, costSaving := 129900, revenueSaving := 250000, riskSaving := 22500 } := by
  norm_num [calculateBenefits, calculateLegacyCosts, calculatePlatformCosts, defaultValues,
    ResultSet.mk.injEq]

/-- C6: editField stores the parsed value (0 whenever the parse fails, e.g.
on the empty string — modelled by the parse result being none), replaces
only the named field leaving the other eleven unchanged, and sets
scenario to custom unconditionally. -/
theorem c6_edit_field (s : ComponentState) (name : FieldName) (parsed : Option ℚ) :
    (handleInputChange s name parsed).scenario = "custom"
    ∧ (handleInputChange s name parsed).calculatorValues.get name = parseFloatOrZero parsed
    ∧ (parsed = none → (handleInputChange s name parsed).calculatorValues.get name = 0)
    ∧ (∀ f : FieldName, f ≠ name →
        (handleInputChange s name parsed).calculatorValues.get f = s.calculatorValues.get f) := by
  refine ⟨rfl, ?_, ?_, ?_⟩
  · cases name <;> rfl
  · intro h
    subst h
    cases name <;> rfl
  · intro f hf
    cases name <;> cases f <;>
      simp_all [handleInputChange, ParameterSet.setField, ParameterSet.get]

/-- C6 witness: after selecting the conservative scenario, editing
num_partners with an unparseable value stores 0, sets scenario to custom,
and leaves avg_tx_per_partner at its conservative preset value. -/
theorem c6_edit_field_witness :
    (handleInputChange (handleScenarioChange initialState "conservative")
        FieldName.num_partners none).scenario = "custom"
    ∧ (handleInputChange (handleScenarioChange initialState "conservative")
        FieldName.num_partners none).calculatorValues.get FieldName.num_partners = 0
    ∧ (handleInputChange (handleScenarioChange initialState "conservative")
        FieldName.num_partners none).calculatorValues.get FieldName.avg_tx_per_partner =
        (handleScenarioChange initialState "conservative").calculatorValues.get
          FieldName.avg_tx_per_partner :=
  ⟨(c6_edit_field (handleScenarioChange initialState "conservative") FieldName.num_partners none).1,
   (c6_edit_field (handleScenarioChange initialState "conservative") FieldName.num_partners none).2.2.1 rfl,
   (c6_edit_field (handleScenarioChange initialState "conservative") FieldName.num_partners none).2.2.2
     FieldName.avg_tx_per_partner (by decide)⟩

/-- C7: selecting default, conservative or optimistic replaces the current
ParameterSet wholesale with the corresponding preset, sets scenario to the
chosen name, leaves results untouched, and the conservative and optimistic
presets agree with the default preset on every field other than
num_partners, avg_tx_per_partner and daily_revenue_per_partner. -/
theorem c7_select_scenario (s : ComponentState) (name : String) :
    (name = "default" → (handleScenarioChange s name).calculatorValues = defaultValues)
    ∧ (name = "conservative" → (handleScenarioChange s name).calculatorValues = scenarios_conservative)
    ∧ (name = "optimistic" → (handleScenarioChange s name).calculatorValues = scenarios_optimistic)
    ∧ (handleScenarioChange s name).scenario = name
    ∧ (handleScenarioChange s name).roiResults = s.roiResults
    ∧ (∀ f : FieldName, f ≠ FieldName.num_partners → f ≠ FieldName.avg_tx_per_partner →
        f ≠ FieldName.daily_revenue_per_partner →
        scenarios_conservative.get f = defaultValues.get f
          ∧ scenarios_optimistic.get f = defaultValues.get f) := by
  refine ⟨?_, ?_, ?_, rfl, rfl, ?_⟩
  · intro h; subst h; simp [handleScenarioChange]
  · intro h; subst h; simp [handleScenarioChange]
  · intro h; subst h; simp [handleScenarioChange]
  · intro f h1 h2 h3
    cases f <;> simp_all [ParameterSet.get, scenarios_conservative, scenarios_optimistic]

/-- C7 witness: selecting conservative from the initial state installs the
conservative preset, records the scenario name, keeps the initial results,
and int_maint_pct agrees between the conservative and default presets. -/
theorem c7_select_scenario_witness :
    (handleScenarioChange initialState "conservative").calculatorValues = scenarios_conservative
    ∧ (handleScenarioChange initialState "conservative").scenario = "conservative"
    ∧ (handleScenarioChange initialState "conservative").roiResults = initialState.roiResults
    ∧ scenarios_conservative.get FieldName.int_maint_pct = defaultValues.get FieldName.int_maint_pct :=
  ⟨(c7_select_scenario initialState "conservative").2.1 rfl,
   (c7_select_scenario initialState "conservative").2.2.2.1,
   (c7_select_scenario initialState "conservative").2.2.2.2.1,
   ((c7_select_scenario initialState "conservative").2.2.2.2.2 FieldName.int_maint_pct
     (by decide) (by decide) (by decide)).1⟩

/-- C8: toggleMetricDetail clears the selection when the key matches and
sets it otherwise, double-toggling from the collapsed state returns to
collapsed, it never touches roiResults, handleCalculate never touches
selectedMetric, and the two operations commute on the whole state. -/
theorem c8_toggle_metric (s : ComponentState) (key : String) :
    ((toggleMetricDetail s key).selectedMetric =
        if s.selectedMetric = some key then none else some key)
    ∧ (s.selectedMetric = none →
        (toggleMetricDetail (toggleMetricDetail s key) key).selectedMetric = none)
    ∧ (toggleMetricDetail s key).roiResults = s.roiResults
    ∧ (handleCalculate s).selectedMetric = s.selectedMetric
    ∧ handleCalculate (toggleMetricDetail s key) = toggleMetricDetail (handleCalculate s) key := by
  refine ⟨rfl, ?_, rfl, rfl, ?_⟩
  · intro h
    simp [toggleMetricDetail, h]
  · simp [handleCalculate, toggleMetricDetail]

/-- C8 witness: from the initial (collapsed) state, toggling the same key
twice returns the selection to collapsed. -/
theorem c8_toggle_metric_witness :
    (toggleMetricDetail (toggleMetricDetail initialState "totalBenefit") "totalBenefit").selectedMetric
      = none :=
  (c8_toggle_metric initialState "totalBenefit").2.1 rfl

/-- C9: the result grid is shown exactly when totalBenefit is strictly
positive; a non-positive totalBenefit (including the initial all-zero
ResultSet) suppresses it. -/
theorem c9_display_guard (s : ComponentState) :
    (showResultsGrid s = true ↔ 0 < s.roiResults.totalBenefit)
    ∧ (s.roiResults.totalBenefit ≤ 0 → showResultsGrid s = false)
    ∧ showResultsGrid initialState = false := by
  refine ⟨by simp [showResultsGrid], ?_, by norm_num [showResultsGrid, initialState]⟩
  intro h
  simpa [showResultsGrid] using h

/-- C9 witness: the initial all-zero ResultSet suppresses the result grid. -/
theorem c9_display_guard_witness : showResultsGrid initialState = false :=
  (c9_display_guard initialState).2.1 (by norm_num [initialState])

/-- C10: any scenario name other than conservative and optimistic (custom
included) installs the default preset and stores the name verbatim in
scenario; there is no rejection path. -/
theorem c10_unrecognized_scenario (s : ComponentState) (name : String)
    (h1 : name ≠ "conservative") (h2 : name ≠ "optimistic") :
    (handleScenarioChange s name).calculatorValues = defaultValues
    ∧ (handleScenarioChange s name).scenario = name := by
  simp [handleScenarioChange, h1, h2]

/-- C10 witness: the unrecognized name custom installs the default preset
and is stored verbatim. -/
theorem c10_unrecognized_scenario_witness :
    (handleScenarioChange initialState "custom").calculatorValues = defaultValues
    ∧ (handleScenarioChange initialState "custom").scenario = "custom" :=
  c10_unrecognized_scenario initialState "custom" (by decide) (by decide)

end DexMock
